import Mathlib

/-
Verification of the SIM7080G GPS-tracker driver (gps.py) against its
natural-language specification.

The development shallowly embeds the driver's pure protocol logic:

* serial-response cleanup (`_clean_serial_response`, gps.py:54-55),
* the per-attempt response classification and the bounded retry loop of
  `_send_at_command` (gps.py:63-106),
* the fix-reply handling of `get_gps_position` (gps.py:124-138),
* the fix decoder `_parse_gps_info` (gps.py:140-172),
* the HTTPS POST command sequence `post_json_payload` (gps.py:212-264).

The serial transport is modelled as an oracle `reads : Nat -> String`
giving the text of the k-th serial read of a session, after the
carriage-return stripping that `_read_serial_data` (gps.py:40-52) performs.
Python regular expressions are embedded by their semantics on the concrete
patterns the driver uses: a `Pattern` packages the truthiness of
`re.search(pat, s, re.MULTILINE)` and the string `"".join(re.findall(pat,
s, re.MULTILINE))`, the only two ways the driver consumes a pattern.
Python floats are modelled as exact rationals obtained from the decimal
literal (IEEE rounding is not modelled; no claim depends on it).
-/

namespace SIM7080G

/-! ## Character-list string utilities (Python `str.split`, `in`, prefix) -/

/-- Split a character list at every occurrence of the separator, keeping
empty pieces, exactly like Python `str.split(sep)` for a one-character
separator.  Multi-line regex anchors `^`/`$` see exactly these pieces. -/
def splitSep (sep : Char) : List Char → List (List Char)
  | [] => [[]]
  | c :: cs =>
    match splitSep sep cs with
    | [] => [[]]
    | l :: ls => if c = sep then [] :: l :: ls else (c :: l) :: ls

/-- Interleave the separator back between pieces (inverse of `splitSep`
on separator-free pieces). -/
def joinSep (sep : Char) : List (List Char) → List Char
  | [] => []
  | [l] => l
  | l :: ls => l ++ sep :: joinSep sep ls

/-- `leadsWith p l` is true when `p` is an initial segment of `l`. -/
def leadsWith : List Char → List Char → Bool
  | [], _ => true
  | _ :: _, [] => false
  | p :: ps, c :: cs => p == c && leadsWith ps cs

/-- Python's substring test `sub in s` on character lists. -/
def pyContains (sub : List Char) : List Char → Bool
  | [] => sub.isEmpty
  | c :: rest => leadsWith sub (c :: rest) || pyContains sub rest

/-- The lines of a string, in the sense of `re.MULTILINE`: pieces between
newline characters (the driver strips `\r` on read, gps.py:52). -/
def pyLines (s : String) : List (List Char) := splitSep '\n' s.data

/-! ## Regex patterns as their observable semantics -/

/-- A Python regex as the driver consumes it: `search` is the truthiness
of `re.search(pat, s, re.MULTILINE)`; `findallJoin` is
`"".join(re.findall(pat, s, re.MULTILINE))`, the body of
`_filter_serial_response_with_regex` (gps.py:57-58). -/
structure Pattern where
  search : String → Bool
  findallJoin : String → String

/-- The default success pattern `"^OK$"` (gps.py:65): some line is exactly
`OK`; each match is that line. -/
def pat_OK : Pattern where
  search s := (pyLines s).any (fun l => l == "OK".data)
  findallJoin s := ⟨((pyLines s).filter (fun l => l == "OK".data)).flatten⟩

/-- The default failure pattern `"^ERROR.*"` (gps.py:66): some line starts
with `ERROR`; each match is the whole such line. -/
def pat_ERROR : Pattern where
  search s := (pyLines s).any (fun l => leadsWith "ERROR".data l)
  findallJoin s := ⟨((pyLines s).filter (fun l => leadsWith "ERROR".data l)).flatten⟩

/-- The catch-all pattern `".*"` (default return filter, gps.py:67, and the
expected pattern of the leading `AT+SHDISC` step, gps.py:218).  It matches
every string, the empty string included; joined findall matches give the
string with its newlines removed. -/
def pat_dotStar : Pattern where
  search _ := true
  findallJoin s := ⟨(pyLines s).flatten⟩

/-- The fix-query success pattern `".*\+CGNSINF:.*"` (gps.py:128): some
line contains `+CGNSINF:`. -/
def pat_CGNSINF_search : Pattern where
  search s := (pyLines s).any (fun l => pyContains "+CGNSINF:".data l)
  findallJoin s := ⟨((pyLines s).filter (fun l => pyContains "+CGNSINF:".data l)).flatten⟩

/-- The fix-query return filter `"^\+CGNSINF.*"` (gps.py:128): the lines
starting with `+CGNSINF`, concatenated. -/
def pat_CGNSINF_filter : Pattern where
  search s := (pyLines s).any (fun l => leadsWith "+CGNSINF".data l)
  findallJoin s := ⟨((pyLines s).filter (fun l => leadsWith "+CGNSINF".data l)).flatten⟩

/-- `"^\+SHSTATE: 1$"` (gps.py:227): some line is exactly `+SHSTATE: 1`. -/
def pat_SHSTATE1 : Pattern where
  search s := (pyLines s).any (fun l => l == "+SHSTATE: 1".data)
  findallJoin s := ⟨((pyLines s).filter (fun l => l == "+SHSTATE: 1".data)).flatten⟩

/-- `"^>"` (gps.py:230): some line starts with `>`; each match is `>`. -/
def pat_prompt : Pattern where
  search s := (pyLines s).any (fun l => leadsWith ">".data l)
  findallJoin s :=
    ⟨(((pyLines s).filter (fun l => leadsWith ">".data l)).map (fun _ => ['>'])).flatten⟩

/-- A line matching `^\+SHREQ: \"POST\",\d\x7b3\x7d,\d\x7b1,4\x7d$`
(gps.py:248-249): the literal prefix `+SHREQ: "POST",`, then exactly three
digits, a comma, then one to four digits. -/
def shreqResultLine (l : List Char) : Bool :=
  leadsWith "+SHREQ: \"POST\",".data l &&
    (match splitSep ',' (l.drop 15) with
     | [a, b] =>
       a.length == 3 && a.all Char.isDigit &&
         decide (1 ≤ b.length) && decide (b.length ≤ 4) && b.all Char.isDigit
     | _ => false)

/-- The POST-result pattern of gps.py:248-249 (see `shreqResultLine`). -/
def pat_SHREQ_result : Pattern where
  search s := (pyLines s).any shreqResultLine
  findallJoin s := ⟨((pyLines s).filter shreqResultLine).flatten⟩

/-- `"^\+SHREQ.+"` (gps.py:244): a line starting with `+SHREQ` and having
at least one further character. -/
def pat_SHREQ_any : Pattern where
  search s := (pyLines s).any (fun l => leadsWith "+SHREQ".data l && decide (6 < l.length))
  findallJoin s :=
    ⟨((pyLines s).filter (fun l => leadsWith "+SHREQ".data l && decide (6 < l.length))).flatten⟩

/-! ## Response cleanup and classification -/

/-- Whether `$` (multi-line) matches right before this suffix: at the end
of the string or just before a newline. -/
def lineEndOk : List Char → Bool
  | [] => true
  | c :: _ => c == '\n'

/-- The left-to-right non-overlapping replacement scan performed by
`re.sub(f"^\x7bre.escape(cmd)\x7d$", "", input, flags=re.MULTILINE)` for
the escaped (hence literal, possibly multi-line) text `cmd`.  `atStart`
records whether `^` matches at the current position (start of input or
just after a newline).  A match is the literal `cmd` starting at a `^`
position and ending at a `$` position; it is deleted and scanning resumes
at its end, where `^` matches exactly when the last matched character was
a newline.  The empty command only yields empty matches replaced by
nothing, leaving the input unchanged, so it never matches here.  The fuel
is structural bookkeeping only: each step consumes at least one input
character, so `length + 1` never runs out. -/
def pySubScan (cmd : List Char) : Nat → Bool → List Char → List Char
  | 0, _, l => l
  | _ + 1, _, [] => []
  | fuel + 1, atStart, c :: rest =>
    if atStart && !cmd.isEmpty && leadsWith cmd (c :: rest)
        && lineEndOk (List.drop cmd.length (c :: rest)) then
      pySubScan cmd fuel (cmd.getLast? == some '\n') (List.drop cmd.length (c :: rest))
    else c :: pySubScan cmd fuel (c == '\n') rest

/-- Embeds `_clean_serial_response` (gps.py:54-55):
`re.sub(f"^\x7bre.escape(line_to_remove)\x7d$", "", input_data,
flags=re.MULTILINE)`, via the faithful scan `pySubScan`.  For a
newline-free echoed command this deletes every line equal to the command;
for the one multi-line command the driver sends (the payload write,
`json_string + "\n"`, gps.py:244) a match can span a line break. -/
def clean_serial_response (input_data line_to_remove : String) : String :=
  ⟨pySubScan line_to_remove.data (input_data.data.length + 1) true input_data.data⟩

/-- The per-line action of the cleanup for a newline-free echoed command:
a line equal to the command becomes empty, all others stay. -/
def lineF (cmd : List Char) : List Char → List Char :=
  fun p => if p = cmd then [] else p

/-- Line-level characterisation of the cleanup for newline-free commands:
split into lines, blank the lines equal to the command, rejoin.
`pySubScan` coincides with it whenever the command has no newline
(proved below); it is the vehicle for the idempotence argument. -/
def cleanByLines (input cmd : List Char) : List Char :=
  joinSep '\n' ((splitSep '\n' input).map (lineF cmd))

/-- The three-way outcome of one classification attempt inside
`_send_at_command` (gps.py:79-103). -/
inductive ClassifiedResponse where
  | success (extracted : String)
  | failure (extracted : String)
  | ambiguous
deriving DecidableEq

/-- One classification attempt of `_send_at_command` (gps.py:79-101):
clean the echoed command out of the read data, test the success pattern
first, then the failure pattern; on success the return filter selects the
returned text, on failure the failure pattern itself selects it. -/
def classify_attempt (command : String) (expPat failPat retPat : Pattern)
    (raw : String) : ClassifiedResponse :=
  let cleaned := clean_serial_response raw command
  if expPat.search cleaned then .success (retPat.findallJoin cleaned)
  else if failPat.search cleaned then .failure (failPat.findallJoin cleaned)
  else .ambiguous

/-- Terminal outcome of `_send_at_command`: returned filtered data, the
`SIM7080GException(filtered_response)` of gps.py:101, or the
exhausted-retries `SIM7080GException` of gps.py:106. -/
inductive ATOutcome where
  | ok (filtered : String)
  | protocolFailure (text : String)
  | noMatchingResponse
deriving DecidableEq

/-- The message of the exhausted-retries exception (gps.py:106). -/
def noMatchMsg : String := "Response data does not match success or failure regex."

/-- The text carried by the raised `SIM7080GException`. -/
def ATOutcome.errMsg : ATOutcome → String
  | .ok s => s
  | .protocolFailure t => t
  | .noMatchingResponse => noMatchMsg

/-- The retry loop of `_send_at_command` (gps.py:76-106), parametric in the
remaining attempt budget.  `pos` is the index of the next serial read, so
the returned index minus the initial one counts the classification
attempts actually performed. -/
def send_at_go (reads : Nat → String) (command : String)
    (expPat failPat retPat : Pattern) : Nat → Nat → ATOutcome × Nat
  | 0, pos => (.noMatchingResponse, pos)
  | n + 1, pos =>
    match classify_attempt command expPat failPat retPat (reads pos) with
    | .success t => (.ok t, pos + 1)
    | .failure t => (.protocolFailure t, pos + 1)
    | .ambiguous => send_at_go reads command expPat failPat retPat n (pos + 1)

/-- The attempt budget hard-coded at gps.py:71. -/
def at_command_attempts : Nat := 5

/-- `_send_at_command` (gps.py:63-106) over the read oracle: send the
command, then run the classification loop with the fixed budget. -/
def send_at_command (reads : Nat → String) (command : String)
    (expPat failPat retPat : Pattern) (pos : Nat) : ATOutcome × Nat :=
  send_at_go reads command expPat failPat retPat at_command_attempts pos

/-! ## GPS fix acquisition and decoding -/

/-- The field schema of `_parse_gps_info` (gps.py:141-160). -/
inductive PyType where
  | tint
  | tfloat
  | tstr

/-- A value held in the decoded fix record: the result of Python
`int(...)`, `float(...)`, or the raw text.  A float is kept as the exact
scaled decimal of its source literal, `mantissa / 10 ^ shift` (IEEE
rounding is not modelled; no claim compares two differently written
literals). -/
inductive PyVal where
  | pint (n : Int)
  | pfloat (mantissa : Int) (shift : Nat)
  | pstr (s : String)
deriving DecidableEq

/-- Digits of a decimal numeral, most significant first. -/
def natFromDigits (l : List Char) : Nat :=
  l.foldl (fun a c => a * 10 + (c.toNat - 48)) 0

/-- A non-empty all-digit run, as a number; `none` otherwise. -/
def digitsToNat (l : List Char) : Option Nat :=
  if l ≠ [] ∧ l.all Char.isDigit then some (natFromDigits l) else none

/-- Python `int(s)` on the optionally signed decimal integer literals the
modem emits (`none` models the `ValueError` on anything else). -/
def pyInt (s : String) : Option Int :=
  match s.data with
  | '-' :: rest => (digitsToNat rest).map (fun n => -(n : Int))
  | '+' :: rest => (digitsToNat rest).map (fun n => (n : Int))
  | l => (digitsToNat l).map (fun n => (n : Int))

/-- Split at the first dot, if any. -/
def splitFirstDot : List Char → List Char × Option (List Char)
  | [] => ([], none)
  | '.' :: rest => ([], some rest)
  | c :: rest =>
    let p := splitFirstDot rest
    (c :: p.1, p.2)

/-- Python `float(s)` on unsigned decimal forms `digits`,
`digits.digits`, `digits.` or `.digits`, as an exact scaled decimal
`(mantissa, shift)` standing for `mantissa / 10 ^ shift`. -/
def pyFloatCore (l : List Char) : Option (Int × Nat) :=
  match splitFirstDot l with
  | (ip, none) => (digitsToNat ip).map (fun n => ((n : Int), 0))
  | (ip, some fp) =>
    if ip.all Char.isDigit ∧ fp.all Char.isDigit ∧ (ip ≠ [] ∨ fp ≠ []) then
      some (((natFromDigits ip * 10 ^ fp.length + natFromDigits fp : Nat) : Int), fp.length)
    else none

/-- Python `float(s)` with an optional sign (`none` models `ValueError`). -/
def pyFloat (s : String) : Option (Int × Nat) :=
  match s.data with
  | '-' :: rest => (pyFloatCore rest).map (fun m => (-m.1, m.2))
  | '+' :: rest => pyFloatCore rest
  | l => pyFloatCore l

/-- The cast `expected_item_type(item_value)` of gps.py:170. -/
def castVal : PyType → String → Option PyVal
  | .tint, s => (pyInt s).map .pint
  | .tfloat, s => (pyFloat s).map (fun m => .pfloat m.1 m.2)
  | .tstr, s => some (.pstr s)

/-- `gnss_key_names_and_expected_types` (gps.py:141-160), in order. -/
def gnss_key_names_and_expected_types : List (String × PyType) :=
  [("gnss_run_state", .tint), ("gps_fix_status", .tint),
   ("utc_date_time", .tstr), ("latitude", .tfloat), ("longitude", .tfloat),
   ("msl_altitude", .tfloat), ("speed_over_ground", .tfloat),
   ("course_over_ground", .tfloat), ("fix_mode", .tint),
   ("reserved1", .tstr), ("hdop", .tfloat), ("pdop", .tfloat),
   ("vdop", .tfloat), ("reserved2", .tstr),
   ("gps_satellites_in_view", .tint), ("reserved3", .tstr),
   ("hpa", .tfloat), ("vpa", .tfloat)]

/-- Python `s.split(": ")` on character lists (two-character separator,
scanning left to right). -/
def splitColonSpace : List Char → List (List Char)
  | [] => [[]]
  | ':' :: ' ' :: rest => [] :: splitColonSpace rest
  | c :: rest =>
    match splitColonSpace rest with
    | [] => [[]]
    | l :: ls => (c :: l) :: ls

/-- Embeds `_parse_gps_info` (gps.py:140-172): take element 1 of
`gps_data.split(": ")`, split it on commas, zip positionally with the
schema (Python `zip` truncates to the shorter list), then cast every
non-empty value to its declared type while an empty value stays as the
empty string (gps.py:166-170, `if item_value:`).  `none` models the
exception Python raises on a missing separator or a failed cast. -/
def parse_gps_info (gps_data : String) : Option (List (String × PyVal)) :=
  match (splitColonSpace gps_data.data).get? 1 with
  | none => none
  | some body =>
    let values := (splitSep ',' body).map (fun l => (⟨l⟩ : String))
    (gnss_key_names_and_expected_types.zip values).mapM
      (fun kv => if kv.2 ≠ "" then (castVal kv.1.2 kv.2).map (fun v => (kv.1.1, v))
                 else some (kv.1.1, .pstr kv.2))

/-- What one iteration of `get_gps_position`'s loop does with its
outcome: `retry` models the 10-second sleep and re-query (gps.py:130,
135-138), `done` models returning the decoded record (gps.py:134). -/
inductive GpsPollResult where
  | retry
  | done (record : Option (List (String × PyVal)))
deriving DecidableEq

/-- The reply handling of `get_gps_position` (gps.py:129-134): the
no-lock test is the Python substring test `",,,," in response`; only a
reply without four consecutive commas is handed to the decoder. -/
def gps_handle_response (response : String) : GpsPollResult :=
  if pyContains ",,,,".data response.data then .retry
  else .done (parse_gps_info response)

/-- One full iteration of `get_gps_position` (gps.py:124-138): issue
`AT+CGNSINF` with the fix-query patterns; an executor-level exception also
takes the retry path (gps.py:135-136). -/
def gps_poll_step (reads : Nat → String) (pos : Nat) : GpsPollResult × Nat :=
  match send_at_command reads "AT+CGNSINF" pat_CGNSINF_search pat_ERROR pat_CGNSINF_filter pos with
  | (.ok resp, p) => (gps_handle_response resp, p)
  | (_, p) => (.retry, p)

/-! ## The HTTPS POST session -/

/-- One configured step of `post_json_payload`'s command tuple
(gps.py:217-231): command text, expected-reply pattern, human-readable
step description. -/
structure PostStep where
  command : String
  expected : Pattern
  statusMsg : String

/-- The fixed ordered command sequence of gps.py:217-231, built from the
url and the payload length exactly as the source interpolates them. -/
def post_commands (url : String) (json_length : Nat) : List PostStep :=
  [⟨"AT+SHDISC", pat_dotStar, "Cleaning up any old (failed) connections. ERRORs ignored"⟩,
   ⟨"AT+CSSLCFG=\"sslversion\",1,3", pat_OK, "Setting TLS version"⟩,
   ⟨"AT+CSSLCFG=\"ignorertctime\",1,1", pat_OK, "Disabling TLS cert expiration checking"⟩,
   ⟨"AT+CSSLCFG=\"sni\",1,\"paglusch.com\"", pat_OK, "Enabling SNI"⟩,
   ⟨"AT+SHSSL=1,\"\"", pat_OK, "Relaxing TLS verification"⟩,
   ⟨"AT+SHCONF=\"URL\",\"" ++ url ++ "\"", pat_OK, "Setting URL to " ++ url⟩,
   ⟨"AT+SHCONF=\"BODYLEN\",1024", pat_OK, "Setting max body size to 1024"⟩,
   ⟨"AT+SHCONF=\"HEADERLEN\",350", pat_OK, "Setting max header size to 350"⟩,
   ⟨"AT+SHCONN", pat_OK, "Creating HTTPS connection"⟩,
   ⟨"AT+SHSTATE?", pat_SHSTATE1, "Verifying connection is alive"⟩,
   ⟨"AT+SHCHEAD", pat_OK, "Clearing existing headers"⟩,
   ⟨"AT+SHAHEAD=\"Content-Type\",\"application/json\"", pat_OK, "Adding Content-Type header"⟩,
   ⟨"AT+SHBOD=" ++ toString json_length ++ ",10000", pat_prompt, "Preparing modem for JSON payload input"⟩]

/-- How `post_json_payload` ends: the config-loop failure log of
gps.py:238 (command, step description, error text), the POST-phase failure
log of gps.py:263 (error text only), or the success log of gps.py:261
with the HTTP reply that was read back. -/
inductive PostOutcome where
  | configFailed (command statusMsg errText : String)
  | postPhaseFailed (errText : String)
  | succeeded (httpReply : String)
deriving DecidableEq

/-- Observable result of one `post_json_payload` call: the commands
written to the serial port in order, how the call ended, and the Python
return value (the function body only ever executes a bare `return`). -/
structure PostRun where
  issued : List String
  outcome : PostOutcome
  retVal : Option String
deriving DecidableEq

/-- Read position plus commands issued so far. -/
structure SessionPos where
  pos : Nat
  issued : List String

/-- Result of the configuration loop of gps.py:232-239. -/
inductive ConfigResult where
  | passed (st : SessionPos)
  | failed (command statusMsg errText : String) (st : SessionPos)

/-- The configuration loop of gps.py:232-239: run each step in order with
the default failure pattern and return filter; the first
`SIM7080GException` stops the loop with that step's command, description
and error text (the function then returns at gps.py:239 without issuing
any further command). -/
def run_config_steps (reads : Nat → String) : List PostStep → SessionPos → ConfigResult
  | [], st => .passed st
  | step :: rest, st =>
    let r := send_at_command reads step.command step.expected pat_ERROR pat_dotStar st.pos
    let st' : SessionPos := ⟨r.2, st.issued ++ [step.command]⟩
    match r.1 with
    | .ok _ => run_config_steps reads rest st'
    | .protocolFailure t => .failed step.command step.statusMsg t st'
    | .noMatchingResponse => .failed step.command step.statusMsg noMatchMsg st'

/-- Python `post_result.split(',')[-1]` (gps.py:250). -/
def lastSplitComma (s : String) : String :=
  ⟨(splitSep ',' s.data).getLastD []⟩

/-- Embeds `post_json_payload` (gps.py:212-264): the configuration loop,
then the payload write (command `json_string + "\n"`, gps.py:244), the
POST trigger `AT+SHREQ` (gps.py:247-249), the reply read `AT+SHREAD`
parameterised by the last comma-field of the POST result (gps.py:250-255),
and the closing `AT+SHDISC` (gps.py:259) — each later step reached only
when every earlier one succeeded, any exception ending the call.  The
Python function returns `None` on every path, which `retVal` records. -/
def post_json_payload (reads : Nat → String) (url json_string : String) : PostRun :=
  let commands := post_commands url json_string.length
  match run_config_steps reads commands ⟨0, []⟩ with
  | .failed c m t st => ⟨st.issued, .configFailed c m t, none⟩
  | .passed st =>
    let cmd1 := json_string ++ "\n"
    let issued1 := st.issued ++ [cmd1]
    match send_at_command reads cmd1 pat_OK pat_ERROR pat_SHREQ_any st.pos with
    | (.ok _, p1) =>
      let cmd2 := "AT+SHREQ=\"/post-echo.php\",3"
      let issued2 := issued1 ++ [cmd2]
      match send_at_command reads cmd2 pat_SHREQ_result pat_ERROR pat_SHREQ_result p1 with
      | (.ok post_result, p2) =>
        let cmd3 := "AT+SHREAD=0," ++ lastSplitComma post_result
        let issued3 := issued2 ++ [cmd3]
        match send_at_command reads cmd3 pat_OK pat_ERROR pat_dotStar p2 with
        | (.ok http_reply, p3) =>
          let issued4 := issued3 ++ ["AT+SHDISC"]
          match send_at_command reads "AT+SHDISC" pat_OK pat_ERROR pat_dotStar p3 with
          | (.ok _, _) => ⟨issued4, .succeeded http_reply, none⟩
          | (e, _) => ⟨issued4, .postPhaseFailed e.errMsg, none⟩
        | (e, _) => ⟨issued3, .postPhaseFailed e.errMsg, none⟩
      | (e, _) => ⟨issued2, .postPhaseFailed e.errMsg, none⟩
    | (e, _) => ⟨issued1, .postPhaseFailed e.errMsg, none⟩

/-! ## Concrete inputs used by the claims -/

/-- The well-formed fix line of the specification's decoding example. -/
def gnssExampleLine : String :=
  "+CGNSINF: 1,1,20240101120000.000,37.774900,-122.419400,15.200,0.00,0.0,1,,1.2,0.8,0.9,,7,,25,30"

/-- A well-formed 18-field fix line whose reserved1/hdop/pdop/vdop/reserved2
fields happen to be empty, so it contains four consecutive commas. -/
def gnssSparseLine : String :=
  "+CGNSINF: 1,1,20240101120000.000,37.774900,-122.419400,15.200,0.00,0.0,1,,,,,,7,,25,30"

/-- Oracle for a POST session whose 9th configured step (`AT+SHCONN`)
returns a failure reply; every earlier read answers `OK`. -/
def readsConnFail : Nat → String := fun i => if i < 8 then "OK" else "ERROR"

/-- Oracle for a fully successful POST session, one read per command. -/
def readsPostOk : Nat → String := fun i =>
  (["OK", "OK", "OK", "OK", "OK", "OK", "OK", "OK", "OK",
    "+SHSTATE: 1", "OK", "OK", ">", "OK",
    "+SHREQ: \"POST\",200,13", "da-response\nOK", "OK"]).getD i ""

/-! ## Helper lemmas -/

theorem classify_attempt_eq (command : String) (expPat failPat retPat : Pattern)
    (raw : String) :
    classify_attempt command expPat failPat retPat raw =
      (if expPat.search (clean_serial_response raw command) then
        ClassifiedResponse.success (retPat.findallJoin (clean_serial_response raw command))
       else if failPat.search (clean_serial_response raw command) then
        ClassifiedResponse.failure (failPat.findallJoin (clean_serial_response raw command))
       else .ambiguous) := rfl

theorem splitSep_ne_nil (sep : Char) (l : List Char) : splitSep sep l ≠ [] := by
  induction l with
  | nil => simp [splitSep]
  | cons c cs ih =>
    cases h : splitSep sep cs with
    | nil => exact absurd h ih
    | cons a as =>
      rw [splitSep, h]
      dsimp only
      split <;> simp

theorem sep_not_mem_splitSep (sep : Char) (l : List Char) :
    ∀ p ∈ splitSep sep l, sep ∉ p := by
  induction l with
  | nil =>
    intro p hp
    simp [splitSep] at hp
    simp [hp]
  | cons c cs ih =>
    intro p hp
    rw [splitSep] at hp
    cases h : splitSep sep cs with
    | nil => exact absurd h (splitSep_ne_nil sep cs)
    | cons a as =>
      rw [h] at hp
      have ha : sep ∉ a := ih a (by rw [h]; exact List.mem_cons_self a as)
      by_cases hc : c = sep
      · simp [hc] at hp
        rcases hp with hp | hp | hp
        · simp [hp]
        · rw [hp]
          exact ha
        · exact ih p (by rw [h]; exact List.mem_cons_of_mem a hp)
      · simp [hc] at hp
        rcases hp with hp | hp
        · rw [hp]
          intro hmem
          rcases List.mem_cons.mp hmem with he | hm
          · exact hc he.symm
          · exact ha hm
        · exact ih p (by rw [h]; exact List.mem_cons_of_mem a hp)

theorem splitSep_of_not_mem (sep : Char) (p : List Char) (hp : sep ∉ p) :
    splitSep sep p = [p] := by
  induction p with
  | nil => simp [splitSep]
  | cons c cs ih =>
    have hc : ¬ c = sep := by
      intro e
      exact hp (by simp [e])
    have hcs : sep ∉ cs := fun hm => hp (List.mem_cons_of_mem _ hm)
    rw [splitSep, ih hcs]
    simp [hc]

theorem splitSep_append_sep (sep : Char) (p t : List Char) (hp : sep ∉ p) :
    splitSep sep (p ++ sep :: t) = p :: splitSep sep t := by
  induction p with
  | nil =>
    rw [List.nil_append, splitSep]
    cases h : splitSep sep t with
    | nil => exact absurd h (splitSep_ne_nil sep t)
    | cons a as => simp
  | cons c cs ih =>
    have hc : ¬ c = sep := by
      intro e
      exact hp (by simp [e])
    have hcs : sep ∉ cs := fun hm => hp (List.mem_cons_of_mem _ hm)
    rw [List.cons_append, splitSep, ih hcs]
    simp [hc]

theorem splitSep_joinSep (sep : Char) (L : List (List Char)) (hne : L ≠ [])
    (hmem : ∀ p ∈ L, sep ∉ p) : splitSep sep (joinSep sep L) = L := by
  induction L with
  | nil => exact absurd rfl hne
  | cons p L ih =>
    cases L with
    | nil =>
      show splitSep sep p = [p]
      exact splitSep_of_not_mem sep p (hmem p (List.mem_cons_self p []))
    | cons q L2 =>
      show splitSep sep (p ++ sep :: joinSep sep (q :: L2)) = p :: q :: L2
      rw [splitSep_append_sep sep p _ (hmem p (List.mem_cons_self p _))]
      rw [ih (by simp) (fun r hr => hmem r (List.mem_cons_of_mem _ hr))]

theorem lineF_idem (cmd p : List Char) : lineF cmd (lineF cmd p) = lineF cmd p := by
  unfold lineF
  by_cases hp : p = cmd <;> simp [hp]

theorem joinSep_cons_head (sep c : Char) (h : List Char) (t : List (List Char)) :
    joinSep sep ((c :: h) :: t) = c :: joinSep sep (h :: t) := by
  cases t <;> simp [joinSep]

theorem splitSep_cons_sep (sep : Char) (rest : List Char) :
    splitSep sep (sep :: rest) = [] :: splitSep sep rest := by
  cases hsr : splitSep sep rest with
  | nil => exact absurd hsr (splitSep_ne_nil sep rest)
  | cons h t =>
    rw [splitSep, hsr]
    simp

theorem splitSep_cons_ne (sep c : Char) (rest h : List Char) (t : List (List Char))
    (hc : ¬ c = sep) (hsr : splitSep sep rest = h :: t) :
    splitSep sep (c :: rest) = (c :: h) :: t := by
  rw [splitSep, hsr]
  simp [hc]

theorem joinSep_splitSep (sep : Char) (l : List Char) :
    joinSep sep (splitSep sep l) = l := by
  induction l with
  | nil => simp [splitSep, joinSep]
  | cons c rest ih =>
    cases hsr : splitSep sep rest with
    | nil => exact absurd hsr (splitSep_ne_nil sep rest)
    | cons h t =>
      have ih2 : joinSep sep (h :: t) = rest := by
        rw [← hsr]
        exact ih
      by_cases hc : c = sep
      · rw [hc, splitSep_cons_sep, hsr]
        rw [show joinSep sep ([] :: h :: t) = [] ++ sep :: joinSep sep (h :: t) from rfl]
        rw [ih2]
        rfl
      · rw [splitSep_cons_ne sep c rest h t hc hsr, joinSep_cons_head, ih2]

theorem leadsWith_append_self (p s : List Char) : leadsWith p (p ++ s) = true := by
  induction p with
  | nil => rfl
  | cons a p ih => simp [leadsWith, ih]

theorem leadsWith_eq_append (p l : List Char) (h : leadsWith p l = true) :
    l = p ++ List.drop p.length l := by
  induction p generalizing l with
  | nil => simp
  | cons a p ih =>
    cases l with
    | nil => simp [leadsWith] at h
    | cons c rest =>
      rw [leadsWith] at h
      obtain ⟨h1, h2⟩ := Bool.and_eq_true_iff.mp h
      have hac : a = c := by simpa using h1
      subst hac
      rw [List.cons_append, List.length_cons, List.drop_succ_cons]
      exact congrArg (List.cons a) (ih rest h2)

theorem pySubScan_nil (cmd : List Char) (fuel : Nat) (b : Bool) :
    pySubScan cmd fuel b [] = [] := by
  cases fuel <;> rfl

theorem matchCond_of_head_line (cmd : List Char) (c : Char) (rest h : List Char)
    (t : List (List Char)) (hsr : splitSep '\n' (c :: rest) = h :: t) (hh : h = cmd)
    (hne : cmd ≠ []) :
    (true && !cmd.isEmpty && leadsWith cmd (c :: rest)
      && lineEndOk (List.drop cmd.length (c :: rest))) = true := by
  have hjoin := joinSep_splitSep '\n' (c :: rest)
  rw [hsr, hh] at hjoin
  have hemp : (!cmd.isEmpty) = true := by
    cases cmd with
    | nil => exact absurd rfl hne
    | cons x xs => rfl
  cases t with
  | nil =>
    have hcr : c :: rest = cmd := by
      rw [← hjoin]
      rfl
    have hlw : leadsWith cmd (c :: rest) = true := by
      rw [hcr]
      have := leadsWith_append_self cmd []
      rwa [List.append_nil] at this
    have hend : lineEndOk (List.drop cmd.length (c :: rest)) = true := by
      rw [hcr, List.drop_length]
      rfl
    simp [hemp, hlw, hend]
  | cons x xs =>
    have hcr : c :: rest = cmd ++ '\n' :: joinSep '\n' (x :: xs) := by
      rw [← hjoin]
      rfl
    have hlw : leadsWith cmd (c :: rest) = true := by
      rw [hcr]
      exact leadsWith_append_self cmd _
    have hend : lineEndOk (List.drop cmd.length (c :: rest)) = true := by
      rw [hcr, List.drop_left]
      rfl
    simp [hemp, hlw, hend]

theorem pySubScan_spec (cmd : List Char) (hcmd : '\n' ∉ cmd) :
    ∀ fuel : Nat,
      (∀ l : List Char, l.length < fuel →
        pySubScan cmd fuel true l = cleanByLines l cmd) ∧
      (∀ (l h : List Char) (t : List (List Char)), l.length < fuel →
        splitSep '\n' l = h :: t →
        pySubScan cmd fuel false l = joinSep '\n' (h :: t.map (lineF cmd))) := by
  intro fuel
  induction fuel with
  | zero =>
    exact ⟨fun l hl => absurd hl (Nat.not_lt_zero _),
           fun l h t hl _ => absurd hl (Nat.not_lt_zero _)⟩
  | succ fuel ih =>
    refine ⟨?_, ?_⟩
    · intro l hl
      cases l with
      | nil => simp [pySubScan, cleanByLines, splitSep, joinSep, lineF]
      | cons c rest =>
        rw [pySubScan]
        by_cases hcond : (true && !cmd.isEmpty && leadsWith cmd (c :: rest)
            && lineEndOk (List.drop cmd.length (c :: rest))) = true
        · rw [if_pos hcond]
          have hc2 := hcond
          simp only [Bool.and_eq_true, Bool.true_and] at hc2
          obtain ⟨⟨hne2, hlw⟩, hend⟩ := hc2
          have hne : cmd ≠ [] := by
            cases cmd with
            | nil => simp at hne2
            | cons x xs => simp
          have hlenpos : 0 < cmd.length := List.length_pos.mpr hne
          have hflag : (cmd.getLast? == some '\n') = false := by
            rw [beq_eq_false_iff_ne]
            intro hg
            exact hcmd (List.mem_of_getLast?_eq_some hg)
          rw [hflag]
          have hsplit := leadsWith_eq_append cmd (c :: rest) hlw
          have hlen : (c :: rest).length
              = cmd.length + (List.drop cmd.length (c :: rest)).length := by
            conv_lhs => rw [hsplit]
            rw [List.length_append]
          cases hs : List.drop cmd.length (c :: rest) with
          | nil =>
            rw [pySubScan_nil]
            have hl2 : c :: rest = cmd := by
              rw [hs] at hsplit
              simpa using hsplit
            rw [hl2]
            unfold cleanByLines
            rw [splitSep_of_not_mem '\n' cmd hcmd]
            simp [lineF, joinSep]
          | cons d r =>
            have hd : d = '\n' := by
              rw [hs] at hend
              simpa [lineEndOk] using hend
            subst hd
            cases hsr : splitSep '\n' r with
            | nil => exact absurd hsr (splitSep_ne_nil '\n' r)
            | cons hₗ tₗ =>
              have hlr : ('\n' :: r).length < fuel := by
                rw [hs] at hlen
                simp only [List.length_cons] at hl hlen ⊢
                omega
              have hstep := ih.2 ('\n' :: r) [] (hₗ :: tₗ) hlr
                (by rw [splitSep_cons_sep, hsr])
              rw [hstep]
              have hl2 : c :: rest = cmd ++ '\n' :: r := by
                rw [hsplit, hs]
              rw [hl2]
              unfold cleanByLines
              rw [splitSep_append_sep '\n' cmd r hcmd, hsr]
              simp [lineF]
        · rw [if_neg hcond]
          by_cases hc : c = '\n'
          · subst hc
            rw [show (('\n' : Char) == '\n') = true from rfl]
            have hrl : rest.length < fuel := by
              simp only [List.length_cons] at hl
              omega
            rw [ih.1 rest hrl]
            unfold cleanByLines
            cases hsr : splitSep '\n' rest with
            | nil => exact absurd hsr (splitSep_ne_nil '\n' rest)
            | cons hₗ tₗ =>
              rw [splitSep_cons_sep, hsr]
              have hf0 : lineF cmd [] = [] := by
                unfold lineF
                split <;> rfl
              rw [List.map_cons, List.map_cons, hf0]
              rfl
          · have hb : (c == '\n') = false := beq_eq_false_iff_ne.mpr hc
            rw [hb]
            cases hsr : splitSep '\n' rest with
            | nil => exact absurd hsr (splitSep_ne_nil '\n' rest)
            | cons hₗ tₗ =>
              have hrl : rest.length < fuel := by
                simp only [List.length_cons] at hl
                omega
              rw [ih.2 rest hₗ tₗ hrl hsr]
              unfold cleanByLines
              rw [splitSep_cons_ne '\n' c rest hₗ tₗ hc hsr]
              have hfch : lineF cmd (c :: hₗ) = c :: hₗ := by
                unfold lineF
                rw [if_neg]
                intro heq
                apply hcond
                exact matchCond_of_head_line cmd c rest (c :: hₗ) tₗ
                  (splitSep_cons_ne '\n' c rest hₗ tₗ hc hsr) heq
                  (by rw [← heq]; simp)
              rw [List.map_cons, hfch, joinSep_cons_head]
    · intro l h t hl hsplit
      cases l with
      | nil =>
        rw [pySubScan_nil]
        rw [splitSep] at hsplit
        injection hsplit with h1 h2
        subst h1
        subst h2
        rfl
      | cons c rest =>
        rw [pySubScan]
        rw [if_neg (by simp)]
        by_cases hc : c = '\n'
        · subst hc
          rw [show (('\n' : Char) == '\n') = true from rfl]
          rw [splitSep_cons_sep] at hsplit
          cases hsr : splitSep '\n' rest with
          | nil => exact absurd hsr (splitSep_ne_nil '\n' rest)
          | cons hₗ tₗ =>
            rw [hsr] at hsplit
            injection hsplit with h1 h2
            subst h1
            subst h2
            have hrl : rest.length < fuel := by
              simp only [List.length_cons] at hl
              omega
            rw [ih.1 rest hrl]
            unfold cleanByLines
            rw [hsr]
            rw [List.map_cons]
            rfl
        · have hb : (c == '\n') = false := beq_eq_false_iff_ne.mpr hc
          rw [hb]
          cases hsr : splitSep '\n' rest with
          | nil => exact absurd hsr (splitSep_ne_nil '\n' rest)
          | cons hₗ tₗ =>
            rw [splitSep_cons_ne '\n' c rest hₗ tₗ hc hsr] at hsplit
            injection hsplit with h1 h2
            subst h1
            subst h2
            have hrl : rest.length < fuel := by
              simp only [List.length_cons] at hl
              omega
            rw [ih.2 rest hₗ tₗ hrl hsr]
            exact (joinSep_cons_head '\n' c hₗ (tₗ.map (lineF cmd))).symm

theorem cleanByLines_idem (input cmd : List Char) :
    cleanByLines (cleanByLines input cmd) cmd = cleanByLines input cmd := by
  unfold cleanByLines
  have hkey : splitSep '\n' (joinSep '\n' ((splitSep '\n' input).map (lineF cmd)))
      = (splitSep '\n' input).map (lineF cmd) := by
    apply splitSep_joinSep
    · intro he
      exact splitSep_ne_nil '\n' input (List.map_eq_nil_iff.mp he)
    · intro p hp
      rcases List.mem_map.mp hp with ⟨q, hq, hfq⟩
      rw [← hfq]
      unfold lineF
      by_cases hqc : q = cmd
      · simp [hqc]
      · simpa [hqc] using sep_not_mem_splitSep '\n' input q hq
  rw [hkey, List.map_map]
  congr 1
  apply List.map_congr_left
  intro p _
  simp only [Function.comp_apply]
  exact lineF_idem cmd p

theorem pyContains_append_left (sub s t : List Char) (h : pyContains sub t = true) :
    pyContains sub (s ++ t) = true := by
  induction s with
  | nil => simpa using h
  | cons c s ih =>
    rw [List.cons_append, pyContains]
    simp [ih]

theorem pyContains_string_append (sub : List Char) (s t : String)
    (h : pyContains sub t.data = true) : pyContains sub (s ++ t).data = true := by
  rw [String.data_append]
  exact pyContains_append_left sub s.data t.data h

theorem send_at_go_all_ambiguous (reads : Nat → String) (command : String)
    (expPat failPat retPat : Pattern) (n : Nat) :
    ∀ p : Nat,
      (∀ i, i < n → classify_attempt command expPat failPat retPat (reads (p + i)) = .ambiguous) →
      send_at_go reads command expPat failPat retPat n p = (.noMatchingResponse, p + n) := by
  induction n with
  | zero =>
    intro p _
    simp [send_at_go]
  | succ n ih =>
    intro p h
    have h0 : classify_attempt command expPat failPat retPat (reads p) = .ambiguous := by
      have := h 0 (Nat.succ_pos n)
      simpa using this
    have hrest : ∀ i, i < n →
        classify_attempt command expPat failPat retPat (reads (p + 1 + i)) = .ambiguous := by
      intro i hi
      have := h (i + 1) (by omega)
      have e : p + (i + 1) = p + 1 + i := by omega
      rwa [e] at this
    rw [send_at_go, h0, ih (p + 1) hrest]
    have e2 : p + 1 + n = p + (n + 1) := by omega
    rw [e2]

/-! ## Claim theorems -/

/-- C9 counterexample: the payload write sends the multi-line command
`json_string + "\n"` (gps.py:244) and `_send_at_command` cleans the read
data with it; for command `p\n` one cleanup pass maps `p\np\n` to `p\n`
and a second pass maps that to the empty string, so echo removal is not
idempotent for every echoed command. -/
theorem c9_counterexample_multiline_echo_not_idempotent :
    clean_serial_response "p\np\n" "p\n" = "p\n" ∧
      clean_serial_response (clean_serial_response "p\np\n" "p\n") "p\n" = "" ∧
      clean_serial_response (clean_serial_response "p\np\n" "p\n") "p\n"
        ≠ clean_serial_response "p\np\n" "p\n" := by
  decide

/-- C9 (amended): echo removal is idempotent for every input text and
every newline-free echoed command — that is, every AT command line the
driver sends; the sole exception in the program is the payload write,
whose command carries a trailing newline. -/
theorem c9_amended_idempotent_for_single_line_commands
    (input_data line_to_remove : String) (hnl : '\n' ∉ line_to_remove.data) :
    clean_serial_response (clean_serial_response input_data line_to_remove) line_to_remove
      = clean_serial_response input_data line_to_remove := by
  have key : ∀ s : String,
      clean_serial_response s line_to_remove
        = ⟨cleanByLines s.data line_to_remove.data⟩ := by
    intro s
    unfold clean_serial_response
    exact congrArg String.mk
      ((pySubScan_spec line_to_remove.data hnl (s.data.length + 1)).1 s.data
        (Nat.lt_succ_self _))
  rw [key input_data]
  rw [key ⟨cleanByLines input_data.data line_to_remove.data⟩]
  exact congrArg String.mk (cleanByLines_idem input_data.data line_to_remove.data)

/-- Witness for the amended C9: the newline-free fix-query command. -/
theorem c9_witness :
    ('\n' ∉ ("AT+CGNSINF" : String).data) ∧
      clean_serial_response (clean_serial_response "AT+CGNSINF\nOK" "AT+CGNSINF") "AT+CGNSINF"
        = clean_serial_response "AT+CGNSINF\nOK" "AT+CGNSINF" :=
  ⟨by decide, c9_amended_idempotent_for_single_line_commands "AT+CGNSINF\nOK" "AT+CGNSINF"
    (by decide)⟩

/-- C5: A single classifier invocation yields exactly one of Success,
Failure or Ambiguous, and when the cleaned reply matches both the success
and the failure pattern the result is Success (the success pattern is
checked first, gps.py:85-101). -/
theorem c5_classifier_partition_success_first (command raw : String)
    (expPat failPat retPat : Pattern) :
    ((∃ t, classify_attempt command expPat failPat retPat raw = .success t) ∨
     (∃ t, classify_attempt command expPat failPat retPat raw = .failure t) ∨
     classify_attempt command expPat failPat retPat raw = .ambiguous) ∧
    (expPat.search (clean_serial_response raw command) = true →
     failPat.search (clean_serial_response raw command) = true →
     classify_attempt command expPat failPat retPat raw
       = .success (retPat.findallJoin (clean_serial_response raw command))) := by
  constructor
  · rw [classify_attempt_eq]
    by_cases h1 : expPat.search (clean_serial_response raw command) = true
    · exact .inl ⟨retPat.findallJoin (clean_serial_response raw command), by simp [h1]⟩
    · by_cases h2 : failPat.search (clean_serial_response raw command) = true
      · exact .inr (.inl ⟨failPat.findallJoin (clean_serial_response raw command),
          by simp [h1, h2]⟩)
      · exact .inr (.inr (by simp [h1, h2]))
  · intro hs _hf
    rw [classify_attempt_eq]
    simp [hs]

/-- Witness for C5 at a concrete reply matching both default patterns:
the classifier returns Success with the return-filtered text. -/
theorem c5_witness :
    classify_attempt "AT" pat_OK pat_ERROR pat_dotStar "OK\nERROR x"
      = .success "OKERROR x" := by
  have h := (c5_classifier_partition_success_first "AT" "OK\nERROR x"
    pat_OK pat_ERROR pat_dotStar).2 (by decide) (by decide)
  rw [h]
  decide

/-- C6: when the cleaned reply matches the failure pattern and not the
success pattern, the executor raises with the text selected by the failure
pattern itself (gps.py:97) and stops after that single attempt, whatever
retry budget remains. -/
theorem c6_failure_text_from_failure_pattern_immediate (reads : Nat → String)
    (command : String) (expPat failPat retPat : Pattern) (n p : Nat)
    (hf : failPat.search (clean_serial_response (reads p) command) = true)
    (hs : expPat.search (clean_serial_response (reads p) command) = false) :
    send_at_go reads command expPat failPat retPat (n + 1) p
      = (.protocolFailure (failPat.findallJoin (clean_serial_response (reads p) command)),
         p + 1) := by
  have hc : classify_attempt command expPat failPat retPat (reads p)
      = .failure (failPat.findallJoin (clean_serial_response (reads p) command)) := by
    rw [classify_attempt_eq]
    simp [hs, hf]
  rw [send_at_go, hc]

/-- Witness for C6: an `ERROR` reply with a junk second line aborts the
full 5-attempt budget after one attempt, carrying the failure-pattern
extraction `ERROR: bad` (the `.*` return filter would have yielded
`ERROR: badjunk` instead, second conjunct). -/
theorem c6_witness :
    send_at_go (fun _ => "ERROR: bad\njunk") "AT+SHCONN" pat_OK pat_ERROR pat_dotStar 5 0
        = (.protocolFailure "ERROR: bad", 1) ∧
      pat_dotStar.findallJoin (clean_serial_response "ERROR: bad\njunk" "AT+SHCONN")
        ≠ "ERROR: bad" := by
  constructor
  · have h := c6_failure_text_from_failure_pattern_immediate
      (fun _ => "ERROR: bad\njunk") "AT+SHCONN" pat_OK pat_ERROR pat_dotStar 4 0
      (by decide) (by decide)
    exact h.trans (by decide)
  · decide

/-- C3: with a retry budget of 3 and a transport that never yields a
classifiable reply, the executor loop performs exactly 3 classification
attempts (the returned read index) and then reports the
exhausted-retries outcome of gps.py:106. -/
theorem c3_retry_limit_three_exact (reads : Nat → String) (command : String)
    (expPat failPat retPat : Pattern)
    (h : ∀ i, i < 3 → classify_attempt command expPat failPat retPat (reads i) = .ambiguous) :
    send_at_go reads command expPat failPat retPat 3 0 = (.noMatchingResponse, 3) := by
  have hall := send_at_go_all_ambiguous reads command expPat failPat retPat 3 0
    (by intro i hi; simpa using h i hi)
  simpa using hall

/-- Witness for C3: a silent transport with the default patterns. -/
theorem c3_witness :
    send_at_go (fun _ => "") "AT+CGNSPWR=1" pat_OK pat_ERROR pat_dotStar 3 0
      = (.noMatchingResponse, 3) :=
  c3_retry_limit_three_exact (fun _ => "") "AT+CGNSPWR=1" pat_OK pat_ERROR pat_dotStar
    (fun _ _ =>
      (by decide : classify_attempt "AT+CGNSPWR=1" pat_OK pat_ERROR pat_dotStar ""
        = .ambiguous))

/-- C4 counterexample: with the catch-all `".*"` success pattern — the one
the driver itself uses for the leading `AT+SHDISC` step (gps.py:218) — an
empty remainder after cleanup classifies as Success with empty extracted
text, not Ambiguous. -/
theorem c4_counterexample_dotstar_empty_success :
    classify_attempt "AT+SHDISC" pat_dotStar pat_ERROR pat_dotStar "" = .success "" ∧
      classify_attempt "AT+SHDISC" pat_dotStar pat_ERROR pat_dotStar "" ≠ .ambiguous := by
  decide

/-- C4 (amended): for the default success and failure patterns `"^OK$"`
and `"^ERROR.*"` — patterns that cannot match inside an empty string — a
response whose remainder after cleanup is empty classifies as Ambiguous,
never Success, whatever the return filter. -/
theorem c4_amended_default_patterns_empty_ambiguous (command raw : String)
    (retPat : Pattern) (h : clean_serial_response raw command = "") :
    classify_attempt command pat_OK pat_ERROR retPat raw = .ambiguous := by
  have h1 : pat_OK.search "" = false := by decide
  have h2 : pat_ERROR.search "" = false := by decide
  rw [classify_attempt_eq, h, h1, h2]
  simp

/-- Witness for the amended C4: an empty read of a power-off command. -/
theorem c4_witness :
    clean_serial_response "" "AT+CGNSPWR=0" = "" ∧
      classify_attempt "AT+CGNSPWR=0" pat_OK pat_ERROR pat_dotStar "" = .ambiguous :=
  ⟨by decide, c4_amended_default_patterns_empty_ambiguous "AT+CGNSPWR=0" "" pat_dotStar (by decide)⟩

/-- C7: a fix-query reply consisting only of the all-empty-fields sentinel
(arbitrary run-state and fix-status fields, the 16 remaining fields empty)
is never handed to the decoder: it takes the poll-retry path of
gps.py:129-130. -/
theorem c7_all_empty_sentinel_takes_retry_path (f1 f2 : String) :
    gps_handle_response ("+CGNSINF: " ++ f1 ++ "," ++ f2 ++ ",,,,,,,,,,,,,,,,") = .retry := by
  unfold gps_handle_response
  simp only [String.data_append]
  exact if_pos (pyContains_append_left _ _ _ (by decide))

/-- C10: the no-lock test of gps.py:129 is a plain substring check for
four consecutive commas; the well-formed, decodable 18-field fix line
`gnssSparseLine` (non-empty latitude and longitude, but empty
reserved1/hdop/pdop/vdop/reserved2) is routed to the poll-retry path even
though the decoder would accept it. -/
theorem c10_four_commas_means_no_lock :
    gps_handle_response gnssSparseLine = .retry ∧
      (parse_gps_info gnssSparseLine).isSome = true := by
  decide

/-- C8 counterexample: in the decoded record of the specification's
example line, the empty source field `reserved1` is not absent or null —
it is present, bound to the uncast empty string. -/
theorem c8_counterexample_empty_field_present :
    ((parse_gps_info gnssExampleLine).bind (fun l => l.lookup "reserved1"))
        = some (.pstr "") ∧
      ((parse_gps_info gnssExampleLine).bind (fun l => l.lookup "reserved1")) ≠ none := by
  decide

/-- C8 (amended): decoding the well-formed example fix line populates all
18 schema fields in order, casting every non-empty value to its declared
type, while each empty positional source field stays present as the
uncast empty string. -/
theorem c8_amended_decode_example :
    parse_gps_info gnssExampleLine =
      some [("gnss_run_state", .pint 1), ("gps_fix_status", .pint 1),
        ("utc_date_time", .pstr "20240101120000.000"),
        ("latitude", .pfloat 37774900 6), ("longitude", .pfloat (-122419400) 6),
        ("msl_altitude", .pfloat 15200 3), ("speed_over_ground", .pfloat 0 2),
        ("course_over_ground", .pfloat 0 1), ("fix_mode", .pint 1),
        ("reserved1", .pstr ""), ("hdop", .pfloat 12 1), ("pdop", .pfloat 8 1),
        ("vdop", .pfloat 9 1), ("reserved2", .pstr ""),
        ("gps_satellites_in_view", .pint 7), ("reserved3", .pstr ""),
        ("hpa", .pfloat 25 0), ("vpa", .pfloat 30 0)] := by
  decide

/-- C1 counterexample: when the 9th configured step (`AT+SHCONN`) fails,
the failure is reported tagged with that step's description, but the final
cleanup disconnect is NOT issued: the last command ever written is
`AT+SHCONN` itself, and the only `AT+SHDISC` in the session is the leading
configured cleanup step, not a trailing one. -/
theorem c1_counterexample_no_final_disconnect :
    (post_json_payload readsConnFail "https://x" "p").outcome
        = .configFailed "AT+SHCONN" "Creating HTTPS connection" "ERROR" ∧
      (post_json_payload readsConnFail "https://x" "p").issued.getLast?
        = some "AT+SHCONN" ∧
      (post_json_payload readsConnFail "https://x" "p").issued.count "AT+SHDISC" = 1 := by
  decide

/-- C1 (amended): when the 9th configured step (connect) fails, no
subsequent command of any kind is executed — the cleanup disconnect
included, since gps.py:239 returns before the POST phase that contains
it — and the failure is reported tagged with the failing step's
description and raw failure text. -/
theorem c1_amended_failure_stops_everything :
    post_json_payload readsConnFail "https://x" "p"
      = ⟨["AT+SHDISC", "AT+CSSLCFG=\"sslversion\",1,3",
          "AT+CSSLCFG=\"ignorertctime\",1,1", "AT+CSSLCFG=\"sni\",1,\"paglusch.com\"",
          "AT+SHSSL=1,\"\"", "AT+SHCONF=\"URL\",\"https://x\"",
          "AT+SHCONF=\"BODYLEN\",1024", "AT+SHCONF=\"HEADERLEN\",350", "AT+SHCONN"],
         .configFailed "AT+SHCONN" "Creating HTTPS connection" "ERROR", none⟩ := by
  decide

/-- C2 counterexample: on a fully successful session the HTTP reply is
read back into a local but the function still returns `None` — the caller
never receives the HTTP response. -/
theorem c2_counterexample_success_returns_none :
    (post_json_payload readsPostOk "https://x" "p").outcome = .succeeded "da-responseOK" ∧
      (post_json_payload readsPostOk "https://x" "p").retVal = none := by
  decide

/-- C2 (amended): `post_json_payload` returns `None` on every path — the
HTTP response and the failure reports are logged, never returned. -/
theorem c2_amended_always_returns_none (reads : Nat → String) (url json_string : String) :
    (post_json_payload reads url json_string).retVal = none := by
  unfold post_json_payload
  dsimp only
  cases run_config_steps reads (post_commands url json_string.length) ⟨0, []⟩ with
  | failed c m t st => rfl
  | passed st =>
    dsimp only
    cases send_at_command reads (json_string ++ "\n") pat_OK pat_ERROR pat_SHREQ_any st.pos with
    | mk o1 p1 =>
      cases o1 with
      | ok t1 =>
        dsimp only
        cases send_at_command reads "AT+SHREQ=\"/post-echo.php\",3" pat_SHREQ_result pat_ERROR
            pat_SHREQ_result p1 with
        | mk o2 p2 =>
          cases o2 with
          | ok t2 =>
            dsimp only
            cases send_at_command reads ("AT+SHREAD=0," ++ lastSplitComma t2) pat_OK pat_ERROR
                pat_dotStar p2 with
            | mk o3 p3 =>
              cases o3 with
              | ok t3 =>
                dsimp only
                cases send_at_command reads "AT+SHDISC" pat_OK pat_ERROR pat_dotStar p3 with
                | mk o4 p4 => cases o4 <;> rfl
              | protocolFailure t => rfl
              | noMatchingResponse => rfl
          | protocolFailure t => rfl
          | noMatchingResponse => rfl
      | protocolFailure t => rfl
      | noMatchingResponse => rfl

end SIM7080G
